import Mathlib

/-!
Shallow embedding of the `anaqha`/`hybridqha` sources:
`src/anaqha/statmech.py`, `src/anaqha/bz_sampling.py`, `src/hybridqha/eos.py`.

Python exceptions are modelled by the `PyError` type; a Python function that
may raise is embedded as a Lean function returning `Except PyError _`.
Python floats are modelled by real numbers; a float power with a non-integer
exponent is `Real.rpow`, an integer-literal power is the monoid power.
-/

/-- The kinds of Python exceptions the embedded code can raise. -/
inductive PyError where
  | valueError (msg : String) : PyError
  | typeError (msg : String) : PyError
  | nameError (msg : String) : PyError
  deriving DecidableEq, Repr

/- ## src/anaqha/statmech.py -/

/-- `scipy.constants.hbar`, the reduced Planck constant in SI units. -/
noncomputable def hbar : ℝ := 1.0545718176461565e-34

/-- `scipy.constants.Boltzmann`, the Boltzmann constant in SI units. -/
noncomputable def Boltzmann : ℝ := 1.380649e-23

/-- The message of the `ValueError` raised by `_validate_frequency`. -/
def invalidFrequencyMsg : String :=
  "Negative frequency is not proper for QHA calculation!"

/-- `bose_einstein_distribution(temperature, frequency)`: computes the
occupation directly, without any frequency validation. -/
noncomputable def bose_einstein_distribution (temperature frequency : ℝ) :
    Except PyError ℝ :=
  Except.ok (1 / (Real.exp (hbar * frequency / (Boltzmann * temperature)) - 1))

open Classical in
/-- `subsystem_partition_function(temperature, frequency)`. -/
noncomputable def subsystem_partition_function (temperature frequency : ℝ) :
    Except PyError ℝ :=
  if frequency < 0 then Except.error (PyError.valueError invalidFrequencyMsg)
  else if frequency = 0 then Except.ok 1
  else
    Except.ok (Real.exp (hbar * frequency / (Boltzmann * temperature) / 2) /
      (Real.exp (hbar * frequency / (Boltzmann * temperature)) - 1))

open Classical in
/-- `subsystem_free_energy(temperature, frequency)`. -/
noncomputable def subsystem_free_energy (temperature frequency : ℝ) :
    Except PyError ℝ :=
  if frequency < 0 then Except.error (PyError.valueError invalidFrequencyMsg)
  else if frequency = 0 then Except.ok 0
  else
    Except.ok (hbar * frequency / 2 +
      Boltzmann * temperature *
        Real.log (1 - Real.exp (-(hbar * frequency) / (Boltzmann * temperature))))

open Classical in
/-- `subsystem_internal_energy(temperature, frequency)`. -/
noncomputable def subsystem_internal_energy (temperature frequency : ℝ) :
    Except PyError ℝ :=
  if frequency < 0 then Except.error (PyError.valueError invalidFrequencyMsg)
  else if frequency = 0 then Except.ok (Boltzmann * temperature)
  else
    Except.ok (hbar * frequency / 2 /
      Real.tanh (hbar * frequency / (2 * Boltzmann * temperature)))

open Classical in
/-- `subsystem_entropy(temperature, frequency)`: validates the frequency and
then computes from the Bose–Einstein occupation (which itself never raises). -/
noncomputable def subsystem_entropy (temperature frequency : ℝ) :
    Except PyError ℝ :=
  if frequency < 0 then Except.error (PyError.valueError invalidFrequencyMsg)
  else
    let n := 1 / (Real.exp (hbar * frequency / (Boltzmann * temperature)) - 1)
    Except.ok (Boltzmann * ((1 + n) * Real.log (1 + n) - n * Real.log n))

open Classical in
/-- `subsystem_volumetric_specific_heat(temperature, frequency)`. -/
noncomputable def subsystem_volumetric_specific_heat (temperature frequency : ℝ) :
    Except PyError ℝ :=
  if frequency < 0 then Except.error (PyError.valueError invalidFrequencyMsg)
  else if frequency = 0 then Except.ok Boltzmann
  else
    Except.ok (Boltzmann *
      (hbar * frequency / Real.sinh (hbar * frequency / (2 * Boltzmann * temperature)) /
        (2 * Boltzmann * temperature)) ^ 2)

/- ## src/hybridqha/eos.py : the per-variant closed-form static methods -/

/-- `Birch._free_energy_at(v, v0, b0, bp0, f0=0)`. -/
noncomputable def Birch.free_energy_at (v v0 b0 bp0 f0 : ℝ) : ℝ :=
  let x := (v0 / v) ^ ((2 : ℝ) / 3) - 1
  let xi := 9 / 16 * b0 * v0 * x ^ 2
  f0 + 2 * xi + (bp0 - 4) * xi * x

/-- `Birch._pressure_at(v, v0, b0, bp0)`. -/
noncomputable def Birch.pressure_at (v v0 b0 bp0 : ℝ) : ℝ :=
  let x := v0 / v
  let xi := x ^ ((2 : ℝ) / 3) - 1
  3 / 8 * b0 * x ^ ((5 : ℝ) / 3) * xi * (4 + 3 * (bp0 - 4) * xi)

/-- `Murnaghan._free_energy_at(v, v0, b0, bp0, f0=0)`. -/
noncomputable def Murnaghan.free_energy_at (v v0 b0 bp0 f0 : ℝ) : ℝ :=
  let x := bp0 - 1
  let y := (v0 / v) ^ bp0
  f0 + b0 / bp0 * v * (y / x + 1) - v0 * b0 / x

/-- `Murnaghan._pressure_at(v, v0, b0, bp0)`. -/
noncomputable def Murnaghan.pressure_at (v v0 b0 bp0 : ℝ) : ℝ :=
  b0 / bp0 * ((v0 / v) ^ bp0 - 1)

/-- `BirchMurnaghan2nd._free_energy_at(v, v0, b0, f0=0)`. -/
noncomputable def BirchMurnaghan2nd.free_energy_at (v v0 b0 f0 : ℝ) : ℝ :=
  let f := ((v0 / v) ^ ((2 : ℝ) / 3) - 1) / 2
  f0 + 9 / 2 * b0 * v0 * f ^ 2

/-- `BirchMurnaghan2nd._pressure_at(v, v0, b0)`. -/
noncomputable def BirchMurnaghan2nd.pressure_at (v v0 b0 : ℝ) : ℝ :=
  let f := ((v0 / v) ^ ((2 : ℝ) / 3) - 1) / 2
  3 * b0 * f * (1 + 2 * f) ^ ((5 : ℝ) / 2)

/-- `BirchMurnaghan3rd._free_energy_at(v, v0, b0, bp0, f0=0)`. -/
noncomputable def BirchMurnaghan3rd.free_energy_at (v v0 b0 bp0 f0 : ℝ) : ℝ :=
  let eta := (v0 / v) ^ ((1 : ℝ) / 3)
  let xi := eta ^ 2 - 1
  f0 + 9 / 16 * b0 * v0 * xi ^ 2 * (6 + bp0 * xi - 4 * eta ^ 2)

/-- `BirchMurnaghan3rd._pressure_at(v, v0, b0, bp0)`. -/
noncomputable def BirchMurnaghan3rd.pressure_at (v v0 b0 bp0 : ℝ) : ℝ :=
  let eta := (v0 / v) ^ ((1 : ℝ) / 3)
  3 / 2 * b0 * (eta ^ 7 - eta ^ 5) * (1 + 3 / 4 * (bp0 - 4) * (eta ^ 2 - 1))

/-- `BirchMurnaghan4th._free_energy_at(v, v0, b0, bp0, bpp0, f0=0)`. -/
noncomputable def BirchMurnaghan4th.free_energy_at (v v0 b0 bp0 bpp0 f0 : ℝ) : ℝ :=
  let f := ((v0 / v) ^ ((2 : ℝ) / 3) - 1) / 2
  let h := b0 * bpp0 + bp0 ^ 2
  f0 + 3 / 8 * v0 * b0 * f ^ 2 *
    ((9 * h - 63 * bp0 + 143) * f ^ 2 + 12 * (bp0 - 4) * f + 12)

/-- `BirchMurnaghan4th._pressure_at(v, v0, b0, bpp0, bp0)`: note the source
declares `bpp0` BEFORE `bp0`, unlike the free-energy companion. -/
noncomputable def BirchMurnaghan4th.pressure_at (v v0 b0 bpp0 bp0 : ℝ) : ℝ :=
  let f := ((v0 / v) ^ ((2 : ℝ) / 3) - 1) / 2
  let h := b0 * bpp0 + bp0 ^ 2
  1 / 2 * b0 * (2 * f + 1) ^ ((5 : ℝ) / 2) *
    ((9 * h - 63 * bp0 + 143) * f ^ 2 + 9 * (bp0 - 4) * f + 6)

/-- `Vinet._free_energy_at(v, v0, b0, bp0, f0=0)`. -/
noncomputable def Vinet.free_energy_at (v v0 b0 bp0 f0 : ℝ) : ℝ :=
  let x := (v / v0) ^ ((1 : ℝ) / 3)
  let xi := 3 / 2 * (bp0 - 1)
  f0 + 9 * b0 * v0 / xi ^ 2 * (1 + (xi * (1 - x) - 1) * Real.exp (xi * (1 - x)))

/-- `Vinet._pressure_at(v, v0, b0, bp0)`. -/
noncomputable def Vinet.pressure_at (v v0 b0 bp0 : ℝ) : ℝ :=
  let x := (v / v0) ^ ((1 : ℝ) / 3)
  let xi := 3 / 2 * (bp0 - 1)
  3 * b0 / x ^ 2 * (1 - x) * Real.exp (xi * (1 - x))

/- ## src/hybridqha/eos.py : the `EOS` base class -/

/-- The six concrete EOS subclasses. -/
inductive Variant where
  | birch | murnaghan | bm2 | bm3 | bm4 | vinet
  deriving DecidableEq, Repr

/-- The state of an `EOS` instance: its variant (the concrete subclass) and
`self._params`, which is `None` or a stored sequence of parameter values.
`__init__(self, *init_params)` always stores the argument tuple, so a
freshly constructed instance holds `some` of the (possibly empty) list;
`none` arises only through the `params` setter. -/
structure EOSState where
  variant : Variant
  params : Option (List ℝ)

/-- `EOS.__init__(self, *init_params)`: stores the argument tuple as is. -/
def EOS_init (variant : Variant) (init_params : List ℝ) : EOSState :=
  ⟨variant, some init_params⟩

/-- The message of the `ValueError` guarding evaluation with `params is None`. -/
def parametersNotSetMsg : String :=
  "The initial parameters of the eos is not set! Please set before use!"

/-- The `TypeError` Python raises when a function is called with a number of
positional arguments that does not match its signature. -/
def arityError : PyError :=
  PyError.typeError "positional arguments do not match the function signature"

/-- Calling the variant static method `_free_energy_at(v, *params)`: each
signature accepts its fixed parameters with `f0` optional (default `0`);
any other argument count raises a `TypeError`. -/
noncomputable def applyFreeEnergy (variant : Variant) (v : ℝ) (ps : List ℝ) :
    Except PyError ℝ :=
  match variant, ps with
  | .birch, [v0, b0, bp0] => Except.ok (Birch.free_energy_at v v0 b0 bp0 0)
  | .birch, [v0, b0, bp0, f0] => Except.ok (Birch.free_energy_at v v0 b0 bp0 f0)
  | .murnaghan, [v0, b0, bp0] => Except.ok (Murnaghan.free_energy_at v v0 b0 bp0 0)
  | .murnaghan, [v0, b0, bp0, f0] => Except.ok (Murnaghan.free_energy_at v v0 b0 bp0 f0)
  | .bm2, [v0, b0] => Except.ok (BirchMurnaghan2nd.free_energy_at v v0 b0 0)
  | .bm2, [v0, b0, f0] => Except.ok (BirchMurnaghan2nd.free_energy_at v v0 b0 f0)
  | .bm3, [v0, b0, bp0] => Except.ok (BirchMurnaghan3rd.free_energy_at v v0 b0 bp0 0)
  | .bm3, [v0, b0, bp0, f0] => Except.ok (BirchMurnaghan3rd.free_energy_at v v0 b0 bp0 f0)
  | .bm4, [v0, b0, bp0, bpp0] => Except.ok (BirchMurnaghan4th.free_energy_at v v0 b0 bp0 bpp0 0)
  | .bm4, [v0, b0, bp0, bpp0, f0] => Except.ok (BirchMurnaghan4th.free_energy_at v v0 b0 bp0 bpp0 f0)
  | .vinet, [v0, b0, bp0] => Except.ok (Vinet.free_energy_at v v0 b0 bp0 0)
  | .vinet, [v0, b0, bp0, f0] => Except.ok (Vinet.free_energy_at v v0 b0 bp0 f0)
  | _, _ => Except.error arityError

/-- Calling the variant static method `_pressure_at(v, *params)`: each
signature accepts exactly its fixed parameters (no default); any other
argument count raises a `TypeError`. For `bm4` the order is
`(v0, b0, bpp0, bp0)`, exactly as in the source. -/
noncomputable def applyPressure (variant : Variant) (v : ℝ) (ps : List ℝ) :
    Except PyError ℝ :=
  match variant, ps with
  | .birch, [v0, b0, bp0] => Except.ok (Birch.pressure_at v v0 b0 bp0)
  | .murnaghan, [v0, b0, bp0] => Except.ok (Murnaghan.pressure_at v v0 b0 bp0)
  | .bm2, [v0, b0] => Except.ok (BirchMurnaghan2nd.pressure_at v v0 b0)
  | .bm3, [v0, b0, bp0] => Except.ok (BirchMurnaghan3rd.pressure_at v v0 b0 bp0)
  | .bm4, [v0, b0, bpp0, bp0] => Except.ok (BirchMurnaghan4th.pressure_at v v0 b0 bpp0 bp0)
  | .vinet, [v0, b0, bp0] => Except.ok (Vinet.pressure_at v v0 b0 bp0)
  | _, _ => Except.error arityError

/-- `EOS.free_energy_at(self, v)`: if `self._params is not None`, apply the
variant static method to `v` and the stored parameters; otherwise raise. -/
noncomputable def EOS_free_energy_at (st : EOSState) (v : ℝ) : Except PyError ℝ :=
  match st.params with
  | some ps => applyFreeEnergy st.variant v ps
  | none => Except.error (PyError.valueError parametersNotSetMsg)

/-- `EOS.pressure_at(self, v)`: analogous to `EOS.free_energy_at`. -/
noncomputable def EOS_pressure_at (st : EOSState) (v : ℝ) : Except PyError ℝ :=
  match st.params with
  | some ps => applyPressure st.variant v ps
  | none => Except.error (PyError.valueError parametersNotSetMsg)

/-- The external solver `scipy.optimize.curve_fit`, abstracted as an oracle:
given the model function (identified by the variant and by which of the two
static methods was dispatched — `true` for `_free_energy_at`), the data and
the initial guess `p0`, it returns an optimal parameter vector `popt` and a
covariance matrix `pcov`. -/
def Solver : Type :=
  Variant → Bool → List ℝ → List ℝ → Option (List ℝ) → List ℝ × List (List ℝ)

/-- The body of the `for _ in range(maxiter)` loop of `EOS.fit`, run
`n + 1` times: each call passes the current parameters as `p0`, and its
`popt` becomes the parameters of the next call; the value is the last
call's `(popt, pcov)` pair. -/
def fitIters (call : Option (List ℝ) → List ℝ × List (List ℝ)) :
    Option (List ℝ) → ℕ → List ℝ × List (List ℝ)
  | p0, 0 => call p0
  | p0, n + 1 => fitIters call (some (call p0).1) n

/-- `EOS.fit(self, xdata, ydata, option, maxiter=1)`. Returns the state of
the instance after the call together with the normal result or the raised
exception. An unrecognized `option` raises a `ValueError` before the loop;
`maxiter = 0` leaves `popt` unbound so the `return` raises a name error;
otherwise the loop runs `maxiter` times, stores the last `popt` and returns
the last `(popt, pcov)`. -/
def EOS_fit (st : EOSState) (solver : Solver) (xdata ydata : List ℝ)
    (option : String) (maxiter : ℕ) :
    EOSState × Except PyError (List ℝ × List (List ℝ)) :=
  if option = "f" ∨ option = "p" then
    match maxiter with
    | 0 => (st, Except.error (PyError.nameError "popt referenced before assignment"))
    | n + 1 =>
      let res := fitIters (solver st.variant (option = "f") xdata ydata) st.params n
      (⟨st.variant, some res.1⟩, Except.ok res)
  else
    (st, Except.error (PyError.valueError
      ("Option " ++ option ++ " not recognized!")))

/- ## src/anaqha/bz_sampling.py -/

/-- `sample(q_weights, quantity)`: validates that all weights are
nonnegative, normalizes them by their sum, sums `quantity` over its last
axis (`quantity.sum(axis=2)`) and contracts the result with the scaled
weights over the remaining trailing axis (`np.dot`), i.e. over the SECOND
axis of the original 3-D array. Entries are rationals, as the arithmetic
is exact. -/
def sample (q_weights : List ℚ) (quantity : List (List (List ℚ))) :
    Except PyError (List ℚ) :=
  if q_weights.all (fun w => 0 ≤ w) then
    let scaled := q_weights.map (fun w => w / q_weights.sum)
    Except.ok (quantity.map (fun mat =>
      (List.zipWith (fun s w => s * w) (mat.map List.sum) scaled).sum))
  else
    Except.error (PyError.valueError "Weights should all be greater equal than 0!")

/-- Modelled from the spec: "normalizes weights to sum to 1, and returns the
weighted sum over the array's last axis" — the weighted combination taken
over the LAST axis of the 3-D array, each last-axis vector contracted with
the normalized weights. Stated only to compare with `sample`. -/
def sampleSpecLastAxis (q_weights : List ℚ) (quantity : List (List (List ℚ))) :
    List (List ℚ) :=
  quantity.map (fun mat => mat.map (fun row =>
    (List.zipWith (fun q w => q * (w / q_weights.sum)) row q_weights).sum))

/- ## Claims about src/anaqha/statmech.py -/

/-- C1 (counterexample): `bose_einstein_distribution` performs no frequency
validation — at temperature 1 and the negative frequency −1 it does NOT
raise the `InvalidFrequency` error, contradicting the claim that every
statistical-mechanics function raises it for every frequency < 0. -/
theorem C1_counterexample_bose_einstein :
    bose_einstein_distribution 1 (-1) ≠
      Except.error (PyError.valueError invalidFrequencyMsg) := by
  simp [bose_einstein_distribution]

/-- C1 (amended): for every temperature and every frequency < 0, the five
`subsystem_*` functions raise the `InvalidFrequency` validation error before
computing any value, while `bose_einstein_distribution` performs no
validation and returns its computed value. -/
theorem C1_negative_frequency_raises (T ω : ℝ) (h : ω < 0) :
    subsystem_partition_function T ω =
      Except.error (PyError.valueError invalidFrequencyMsg) ∧
    subsystem_free_energy T ω =
      Except.error (PyError.valueError invalidFrequencyMsg) ∧
    subsystem_internal_energy T ω =
      Except.error (PyError.valueError invalidFrequencyMsg) ∧
    subsystem_entropy T ω =
      Except.error (PyError.valueError invalidFrequencyMsg) ∧
    subsystem_volumetric_specific_heat T ω =
      Except.error (PyError.valueError invalidFrequencyMsg) ∧
    (bose_einstein_distribution T ω).isOk = true := by
  refine ⟨?_, ?_, ?_, ?_, ?_, rfl⟩
  · simp only [subsystem_partition_function]; rw [if_pos h]
  · simp only [subsystem_free_energy]; rw [if_pos h]
  · simp only [subsystem_internal_energy]; rw [if_pos h]
  · simp only [subsystem_entropy]; rw [if_pos h]
  · simp only [subsystem_volumetric_specific_heat]; rw [if_pos h]

/-- C1 (witness): the amended theorem applied at temperature 1 and
frequency −1. -/
theorem C1_negative_frequency_raises_witness :
    (-1 : ℝ) < 0 ∧
    (subsystem_partition_function 1 (-1) =
      Except.error (PyError.valueError invalidFrequencyMsg) ∧
    subsystem_free_energy 1 (-1) =
      Except.error (PyError.valueError invalidFrequencyMsg) ∧
    subsystem_internal_energy 1 (-1) =
      Except.error (PyError.valueError invalidFrequencyMsg) ∧
    subsystem_entropy 1 (-1) =
      Except.error (PyError.valueError invalidFrequencyMsg) ∧
    subsystem_volumetric_specific_heat 1 (-1) =
      Except.error (PyError.valueError invalidFrequencyMsg) ∧
    (bose_einstein_distribution 1 (-1)).isOk = true) :=
  ⟨by norm_num, C1_negative_frequency_raises 1 (-1) (by norm_num)⟩

/-- C4: for every temperature T > 0, the four quantities with an explicit
ω = 0 branch return their closed-form limits: Z = 1, F = 0, U = k·T,
Cv = k. -/
theorem C4_zero_frequency_limits (T : ℝ) (hT : 0 < T) :
    subsystem_partition_function T 0 = Except.ok 1 ∧
    subsystem_free_energy T 0 = Except.ok 0 ∧
    subsystem_internal_energy T 0 = Except.ok (Boltzmann * T) ∧
    subsystem_volumetric_specific_heat T 0 = Except.ok Boltzmann := by
  refine ⟨?_, ?_, ?_, ?_⟩
  · simp [subsystem_partition_function]
  · simp [subsystem_free_energy]
  · simp [subsystem_internal_energy]
  · simp [subsystem_volumetric_specific_heat]

/-- C4 (witness): the theorem applied at temperature 1. -/
theorem C4_zero_frequency_limits_witness :
    (0 : ℝ) < 1 ∧
    (subsystem_partition_function 1 0 = Except.ok 1 ∧
    subsystem_free_energy 1 0 = Except.ok 0 ∧
    subsystem_internal_energy 1 0 = Except.ok (Boltzmann * 1) ∧
    subsystem_volumetric_specific_heat 1 0 = Except.ok Boltzmann) :=
  ⟨by norm_num, C4_zero_frequency_limits 1 (by norm_num)⟩

/- ## Claims about src/hybridqha/eos.py : evaluation at the reference volume -/

/-- C6: whenever the stored parameters carry an explicit reference free
energy `f0` (and `v0 > 0`; for Murnaghan `bp0 ∉ {0, 1}` and for Vinet
`bp0 ≠ 1` so that no division by zero occurs), `free_energy_at` evaluated
at the reference volume `v0` returns exactly `f0`, for every variant. -/
theorem C6_free_energy_at_v0_eq_f0 (v0 b0 bp0 bpp0 f0 : ℝ) (hv0 : 0 < v0)
    (hbp : bp0 ≠ 0) (hbp1 : bp0 ≠ 1) :
    EOS_free_energy_at (EOS_init .birch [v0, b0, bp0, f0]) v0 = Except.ok f0 ∧
    EOS_free_energy_at (EOS_init .murnaghan [v0, b0, bp0, f0]) v0 = Except.ok f0 ∧
    EOS_free_energy_at (EOS_init .bm2 [v0, b0, f0]) v0 = Except.ok f0 ∧
    EOS_free_energy_at (EOS_init .bm3 [v0, b0, bp0, f0]) v0 = Except.ok f0 ∧
    EOS_free_energy_at (EOS_init .bm4 [v0, b0, bp0, bpp0, f0]) v0 = Except.ok f0 ∧
    EOS_free_energy_at (EOS_init .vinet [v0, b0, bp0, f0]) v0 = Except.ok f0 := by
  have hne : v0 ≠ 0 := ne_of_gt hv0
  have hx1 : bp0 - 1 ≠ 0 := sub_ne_zero.mpr hbp1
  refine ⟨?_, ?_, ?_, ?_, ?_, ?_⟩
  · simp only [EOS_free_energy_at, EOS_init, applyFreeEnergy,
      Birch.free_energy_at, div_self hne, Real.one_rpow]
    norm_num
  · simp only [EOS_free_energy_at, EOS_init, applyFreeEnergy,
      Murnaghan.free_energy_at, div_self hne, Real.one_rpow]
    rw [Except.ok.injEq]
    field_simp
    ring
  · simp only [EOS_free_energy_at, EOS_init, applyFreeEnergy,
      BirchMurnaghan2nd.free_energy_at, div_self hne, Real.one_rpow]
    norm_num
  · simp only [EOS_free_energy_at, EOS_init, applyFreeEnergy,
      BirchMurnaghan3rd.free_energy_at, div_self hne, Real.one_rpow]
    norm_num
  · simp only [EOS_free_energy_at, EOS_init, applyFreeEnergy,
      BirchMurnaghan4th.free_energy_at, div_self hne, Real.one_rpow]
    norm_num
  · simp only [EOS_free_energy_at, EOS_init, applyFreeEnergy,
      Vinet.free_energy_at, div_self hne, Real.one_rpow]
    norm_num

/-- C6 (witness): the theorem applied at `v0 = 1`, `b0 = 1`, `bp0 = 2`,
`bpp0 = 0`, `f0 = 5`. -/
theorem C6_free_energy_at_v0_eq_f0_witness :
    ((0 : ℝ) < 1 ∧ (2 : ℝ) ≠ 0 ∧ (2 : ℝ) ≠ 1) ∧
    (EOS_free_energy_at (EOS_init .birch [1, 1, 2, 5]) 1 = Except.ok 5 ∧
    EOS_free_energy_at (EOS_init .murnaghan [1, 1, 2, 5]) 1 = Except.ok 5 ∧
    EOS_free_energy_at (EOS_init .bm2 [1, 1, 5]) 1 = Except.ok 5 ∧
    EOS_free_energy_at (EOS_init .bm3 [1, 1, 2, 5]) 1 = Except.ok 5 ∧
    EOS_free_energy_at (EOS_init .bm4 [1, 1, 2, 0, 5]) 1 = Except.ok 5 ∧
    EOS_free_energy_at (EOS_init .vinet [1, 1, 2, 5]) 1 = Except.ok 5) :=
  ⟨⟨by norm_num, by norm_num, by norm_num⟩,
    C6_free_energy_at_v0_eq_f0 1 1 2 0 5 (by norm_num) (by norm_num) (by norm_num)⟩

/-- C2: at the reference volume `v0 > 0` with `b0 > 0` (and `bp0 ≠ 0` for
Murnaghan), five of the six variants return pressure exactly 0 — but
`BirchMurnaghan4th._pressure_at` returns `3 * b0 ≠ 0`: its closed form is
missing the overall factor `f` (which vanishes at `v = v0`), so the claim
fails on the code for the fourth-order Birch–Murnaghan variant. -/
theorem C2_pressure_at_v0 (v0 b0 bp0 bpp0 : ℝ) (hv0 : 0 < v0) (hb0 : 0 < b0)
    (hbp : bp0 ≠ 0) :
    Birch.pressure_at v0 v0 b0 bp0 = 0 ∧
    Murnaghan.pressure_at v0 v0 b0 bp0 = 0 ∧
    BirchMurnaghan2nd.pressure_at v0 v0 b0 = 0 ∧
    BirchMurnaghan3rd.pressure_at v0 v0 b0 bp0 = 0 ∧
    Vinet.pressure_at v0 v0 b0 bp0 = 0 ∧
    BirchMurnaghan4th.pressure_at v0 v0 b0 bpp0 bp0 = 3 * b0 ∧
    BirchMurnaghan4th.pressure_at v0 v0 b0 bpp0 bp0 ≠ 0 := by
  have hne : v0 ≠ 0 := ne_of_gt hv0
  have hbm4 : BirchMurnaghan4th.pressure_at v0 v0 b0 bpp0 bp0 = 3 * b0 := by
    simp only [BirchMurnaghan4th.pressure_at, div_self hne, Real.one_rpow]
    norm_num [Real.one_rpow]
    ring
  refine ⟨?_, ?_, ?_, ?_, ?_, hbm4, ?_⟩
  · simp only [Birch.pressure_at, div_self hne, Real.one_rpow]
    norm_num
  · simp only [Murnaghan.pressure_at, div_self hne, Real.one_rpow]
    norm_num
  · simp only [BirchMurnaghan2nd.pressure_at, div_self hne, Real.one_rpow]
    norm_num
  · simp only [BirchMurnaghan3rd.pressure_at, div_self hne, Real.one_rpow]
    norm_num
  · simp only [Vinet.pressure_at, div_self hne, Real.one_rpow]
    norm_num
  · rw [hbm4]
    positivity

/-- C2 (witness): at `v0 = 1`, `b0 = 1`, `bp0 = 4`, `bpp0 = 0` the buggy
fourth-order pressure at the reference volume evaluates to 3, not 0. -/
theorem C2_pressure_at_v0_witness :
    ((0 : ℝ) < 1 ∧ (0 : ℝ) < 1 ∧ (4 : ℝ) ≠ 0) ∧
    (Birch.pressure_at 1 1 1 4 = 0 ∧
    Murnaghan.pressure_at 1 1 1 4 = 0 ∧
    BirchMurnaghan2nd.pressure_at 1 1 1 = 0 ∧
    BirchMurnaghan3rd.pressure_at 1 1 1 4 = 0 ∧
    Vinet.pressure_at 1 1 1 4 = 0 ∧
    BirchMurnaghan4th.pressure_at 1 1 1 0 4 = 3 * 1 ∧
    BirchMurnaghan4th.pressure_at 1 1 1 0 4 ≠ 0) :=
  ⟨⟨by norm_num, by norm_num, by norm_num⟩,
    C2_pressure_at_v0 1 1 4 0 (by norm_num) (by norm_num) (by norm_num)⟩

/- ## Claim C3: evaluation after zero-argument construction -/

/-- C3: an instance constructed with zero initial parameter values stores
the empty tuple, which is NOT `None`, so the `ParametersNotSet` guard in
`free_energy_at`/`pressure_at` does not fire; instead the variant static
method is called with no parameters and Python raises a `TypeError` for the
missing positional arguments. The `ParametersNotSet` `ValueError` is raised
only when `params` was explicitly set to `None`. -/
theorem C3_zero_arg_construction_type_error (variant : Variant) (v : ℝ) :
    EOS_free_energy_at (EOS_init variant []) v = Except.error arityError ∧
    EOS_pressure_at (EOS_init variant []) v = Except.error arityError ∧
    EOS_free_energy_at (EOS_init variant []) v ≠
      Except.error (PyError.valueError parametersNotSetMsg) ∧
    EOS_pressure_at (EOS_init variant []) v ≠
      Except.error (PyError.valueError parametersNotSetMsg) ∧
    EOS_free_energy_at ⟨variant, none⟩ v =
      Except.error (PyError.valueError parametersNotSetMsg) := by
  cases variant <;>
    simp [EOS_free_energy_at, EOS_pressure_at, EOS_init, applyFreeEnergy,
      applyPressure, arityError, parametersNotSetMsg]

/- ## Claims about `EOS.fit` -/

/-- The chain of initial guesses fed to the solver: `solverSeq call p0 k`
is the parameter vector stored in the instance just before the `k + 1`-st
solver invocation. -/
def solverSeq (call : Option (List ℝ) → List ℝ × List (List ℝ))
    (p0 : Option (List ℝ)) : ℕ → Option (List ℝ)
  | 0 => p0
  | k + 1 => some (call (solverSeq call p0 k)).1

theorem solverSeq_shift (call : Option (List ℝ) → List ℝ × List (List ℝ))
    (p0 : Option (List ℝ)) (n : ℕ) :
    solverSeq call p0 (n + 1) = solverSeq call (some (call p0).1) n := by
  induction n with
  | zero => rfl
  | succ k ih => rw [solverSeq, ih]; rfl

theorem fitIters_eq_solverSeq (call : Option (List ℝ) → List ℝ × List (List ℝ))
    (p0 : Option (List ℝ)) (n : ℕ) :
    fitIters call p0 n = call (solverSeq call p0 n) := by
  induction n generalizing p0 with
  | zero => rfl
  | succ k ih => rw [fitIters, ih, ← solverSeq_shift]

/-- C8: an option outside `{"f", "p"}` makes `fit` raise the
`UnknownFitTarget` `ValueError` with the stored parameters untouched and
without invoking the solver: the result is the same for EVERY solver and
every `maxiter`. -/
theorem C8_unknown_option (st : EOSState) (solver : Solver) (xdata ydata : List ℝ)
    (maxiter : ℕ) (option : String) (h1 : option ≠ "f") (h2 : option ≠ "p") :
    EOS_fit st solver xdata ydata option maxiter =
      (st, Except.error (PyError.valueError
        ("Option " ++ option ++ " not recognized!"))) := by
  unfold EOS_fit
  rw [if_neg (by simp [h1, h2])]

/-- A concrete solver used only to instantiate the fit theorems: it prepends
`0` to the current guess and returns a fixed covariance matrix. -/
def testSolver : Solver := fun _ _ _ _ p0 => ((0 : ℝ) :: p0.getD [], [[1]])

/-- C8 (witness): the theorem applied to the unknown option `"x"`. -/
theorem C8_unknown_option_witness :
    (("x" : String) ≠ "f" ∧ ("x" : String) ≠ "p") ∧
    EOS_fit ⟨Variant.birch, some [5]⟩ testSolver [] [] "x" 3 =
      (⟨Variant.birch, some [5]⟩, Except.error (PyError.valueError
        ("Option " ++ "x" ++ " not recognized!"))) :=
  ⟨⟨by decide, by decide⟩,
    C8_unknown_option ⟨Variant.birch, some [5]⟩ testSolver [] [] 3 "x"
      (by decide) (by decide)⟩

/-- C9: for `maxiter = n ≥ 1` and a recognized option, `fit` runs the
solver `n` times in a chain — the first invocation starts from the stored
parameters, each later one from the previous invocation's `popt` — stores
the `n`-th `popt`, and returns the `n`-th `(popt, pcov)` pair. -/
theorem C9_fit_iterates (st : EOSState) (solver : Solver) (xdata ydata : List ℝ)
    (n : ℕ) (hn : 1 ≤ n) (option : String) (hopt : option = "f" ∨ option = "p") :
    EOS_fit st solver xdata ydata option n =
      (⟨st.variant, some (solver st.variant (option = "f") xdata ydata
          (solverSeq (solver st.variant (option = "f") xdata ydata) st.params (n - 1))).1⟩,
        Except.ok (solver st.variant (option = "f") xdata ydata
          (solverSeq (solver st.variant (option = "f") xdata ydata) st.params (n - 1)))) := by
  obtain ⟨m, rfl⟩ : ∃ m, n = m + 1 := ⟨n - 1, (Nat.succ_pred_eq_of_pos hn).symm⟩
  unfold EOS_fit
  rw [if_pos hopt]
  simp only [fitIters_eq_solverSeq, Nat.add_sub_cancel]

/-- C9 (witness): two iterations with the concrete `testSolver`, starting
from stored parameters `[5]`: the chained guesses are `[5]`, `[0, 5]`, the
final `popt` is `[0, 0, 5]` and it both replaces the stored parameters and
is returned with the covariance. -/
theorem C9_fit_iterates_witness :
    (1 : ℕ) ≤ 2 ∧
    EOS_fit ⟨Variant.birch, some [5]⟩ testSolver [] [] "f" 2 =
      (⟨Variant.birch, some [0, 0, 5]⟩, Except.ok ([0, 0, 5], [[1]])) :=
  ⟨by norm_num,
    (C9_fit_iterates ⟨Variant.birch, some [5]⟩ testSolver [] [] 2 (by norm_num)
      "f" (Or.inl rfl)).trans rfl⟩

/-- C10: `fit` with `maxiter = 0` and a recognized option never runs the
loop, so the `return` statement reads the never-bound `popt` and raises a
name error; the stored parameters are unchanged and no solver call is made
(the result is the same for EVERY solver). -/
theorem C10_zero_maxiter (st : EOSState) (solver : Solver) (xdata ydata : List ℝ)
    (option : String) (hopt : option = "f" ∨ option = "p") :
    EOS_fit st solver xdata ydata option 0 =
      (st, Except.error (PyError.nameError "popt referenced before assignment")) := by
  unfold EOS_fit
  rw [if_pos hopt]

/-- C10 (witness): the theorem applied with option `"p"`. -/
theorem C10_zero_maxiter_witness :
    (("p" : String) = "f" ∨ ("p" : String) = "p") ∧
    EOS_fit ⟨Variant.vinet, some [1, 2, 3]⟩ testSolver [] [] "p" 0 =
      (⟨Variant.vinet, some [1, 2, 3]⟩,
        Except.error (PyError.nameError "popt referenced before assignment")) :=
  ⟨Or.inr rfl,
    C10_zero_maxiter ⟨Variant.vinet, some [1, 2, 3]⟩ testSolver [] [] "p" (Or.inr rfl)⟩

/- ## Claim C7: the weighted-sampling collaborator -/

instance {ε α : Type} [DecidableEq ε] [DecidableEq α] :
    DecidableEq (Except ε α) := fun x y =>
  match x, y with
  | .ok a, .ok b => decidable_of_iff (a = b) (by simp)
  | .error a, .error b => decidable_of_iff (a = b) (by simp)
  | .ok _, .error _ => isFalse (by simp)
  | .error _, .ok _ => isFalse (by simp)

/-- C7 (counterexample): at weights `[1, 1]` and the 3-D array
`[[[1, 2], [3, 4]]]`, `sample` returns `[5]` — the average over the MIDDLE
axis of the last-axis sums — while the spec-modelled weighted sum over the
last axis is `[[3/2, 7/2]]`; in particular the output is not the plain
element-wise average over the last axis. -/
theorem C7_counterexample_last_axis :
    sample [1, 1] [[[1, 2], [3, 4]]] = Except.ok [5] ∧
    sampleSpecLastAxis [1, 1] [[[1, 2], [3, 4]]] = [[3 / 2, 7 / 2]] ∧
    sample [1, 1] [[[1, 2], [3, 4]]] ≠
      Except.ok (sampleSpecLastAxis [1, 1] [[[1, 2], [3, 4]]]).flatten := by
  refine ⟨?_, ?_, ?_⟩ <;>
    norm_num [sample, sampleSpecLastAxis, List.zipWith, List.flatten]

theorem zipWith_scaled_sum (mat : List (List ℚ)) (w : List ℚ) (S : ℚ) :
    (List.zipWith (fun s x => s * x) (mat.map List.sum)
        (w.map (fun x => x / S))).sum =
      (List.zipWith (fun row x => x * row.sum) mat w).sum / S := by
  induction mat generalizing w with
  | nil => simp
  | cons row rest ih =>
    cases w with
    | nil => simp
    | cons w0 ws =>
      simp only [List.map_cons, List.zipWith_cons_cons, List.sum_cons, ih, add_div]
      ring_nf

/-- C7 (amended): for every weight list with all entries nonnegative and
every 3-D array, `sample` accepts the weights and returns, for each
outermost slice, the weight-normalized combination over the MIDDLE axis of
the sums over the last axis: `result[i] = (Σⱼ wⱼ · Σₖ q[i][j][k]) / Σ w`. -/
theorem C7_sample_weights_middle_axis (w : List ℚ) (q : List (List (List ℚ)))
    (hw : ∀ x ∈ w, 0 ≤ x) :
    sample w q = Except.ok (q.map (fun mat =>
      (List.zipWith (fun row x => x * row.sum) mat w).sum / w.sum)) := by
  have hall : w.all (fun x => 0 ≤ x) = true := by
    rw [List.all_eq_true]
    intro x hx
    exact decide_eq_true (hw x hx)
  unfold sample
  rw [if_pos hall]
  simp only [Except.ok.injEq]
  apply List.map_congr_left
  intro mat _
  exact zipWith_scaled_sum mat w w.sum

/-- C7 (witness): the amended theorem applied at weights `[1, 1]` and the
array `[[[1, 2], [3, 4]]]`, where the result is `[((1·3 + 1·7)) / 2] = [5]`,
the plain average over the middle axis of the last-axis sums. -/
theorem C7_sample_weights_middle_axis_witness :
    (∀ x ∈ [(1 : ℚ), 1], 0 ≤ x) ∧
    sample [1, 1] [[[1, 2], [3, 4]]] = Except.ok [5] :=
  ⟨by decide, by
    rw [C7_sample_weights_middle_axis [1, 1] [[[1, 2], [3, 4]]] (by decide)]
    norm_num [List.zipWith]⟩

/- ## Claim C5: pressure as the volume-derivative of the free energy -/

/-- C5: the fourth-order Birch–Murnaghan variant violates the
derivative-consistency contract. With free-energy parameters
`v0 = 1, b0 = 1, bp0 = 4, bpp0 = 0, f0 = 0` and the pressure evaluated with
the same values (in the pressure signature's own order `v0, b0, bpp0, bp0`),
minus the volume-derivative of the free energy at the reference volume is 0,
but the pressure function returns 3: the pressure closed form is missing an
overall factor `f`. (The source also swaps `bp0`/`bpp0` between the two
signatures.) -/
theorem C5_bm4_pressure_not_minus_dFdV :
    deriv (fun v => BirchMurnaghan4th.free_energy_at v 1 1 4 0 0) 1 = 0 ∧
    BirchMurnaghan4th.pressure_at 1 1 1 0 4 = 3 ∧
    BirchMurnaghan4th.pressure_at 1 1 1 0 4 ≠
      -deriv (fun v => BirchMurnaghan4th.free_energy_at v 1 1 4 0 0) 1 := by
  have hderiv : deriv (fun v => BirchMurnaghan4th.free_energy_at v 1 1 4 0 0) 1 = 0 := by
    have hfun : (fun v => BirchMurnaghan4th.free_energy_at v 1 1 4 0 0) =
        (fun v : ℝ => 3 / 8 * (((1 / v) ^ ((2 : ℝ) / 3) - 1) / 2) ^ 2 *
          (35 * (((1 / v) ^ ((2 : ℝ) / 3) - 1) / 2) ^ 2 + 12)) := by
      funext v
      simp only [BirchMurnaghan4th.free_energy_at]
      norm_num
    rw [hfun]
    have h1 : HasDerivAt (fun v : ℝ => 1 / v) (-1) 1 := by
      simpa using hasDerivAt_inv (one_ne_zero : (1 : ℝ) ≠ 0)
    have h2 := h1.rpow_const (p := (2 : ℝ) / 3) (Or.inl (by norm_num))
    have h3 := (h2.sub_const 1).div_const 2
    have h4 := h3.pow 2
    have h5 := h4.const_mul (3 / 8 : ℝ)
    have h6 := (h4.const_mul (35 : ℝ)).add_const 12
    have h7 := h5.mul h6
    rw [h7.deriv]
    norm_num [Real.one_rpow]
  have hpres : BirchMurnaghan4th.pressure_at 1 1 1 0 4 = 3 := by
    simp only [BirchMurnaghan4th.pressure_at]
    norm_num [Real.one_rpow]
  exact ⟨hderiv, hpres, by rw [hderiv, hpres]; norm_num⟩
